import Mathlib

/-!
Verification of the daily-selection, streak and account/completion logic of
the Benkhawiya healing-platform service (`src/app/main.py`), shallowly
embedded in Lean.

Modelling conventions:
* Calendar dates are `Int` (a day number); `datetime.timedelta(days = k)`
  becomes subtraction of `k`.
* Timestamps (`completed_at`, `NOW()`) are `Int` seconds; the SQL interval
  `'3 days'` is `259200` seconds.
* The per-user rows of the `practice_completions` table are a
  `List Completion`; SQL queries over them become explicit filter / sort /
  take operations.
* The password-hashing primitive (bcrypt via passlib) and the JWT encoder
  are external collaborators; they are modelled by concrete opaque-looking
  functions whose internals none of the theorems depend on.
* HTTP errors (`HTTPException(status_code, detail)`) become `ApiError.http`.
-/

namespace Benkhawiya

/-- A practice entry of the static catalog `HEALING_PRACTICES`
(`src/app/main.py` lines 57-125). -/
structure PracticeEntry where
  id : String
  name : String
  duration : Nat
  steps : List String
  focus : String
  benefits : List String
deriving DecidableEq, Repr

/-- Catalog entry `reconnection_breathing` (beginner). -/
def reconnection_breathing : PracticeEntry :=
  { id := "reconnection_breathing"
    name := "Reconnection Breathing"
    duration := 5
    steps :=
      [ "Find a comfortable seated position"
      , "Close your eyes and take 3 deep breaths"
      , "Breathe in: I honor my ancestors"
      , "Breathe out: I release fragmentation"
      , "Breathe in: I am whole"
      , "Breathe out: I am connected"
      , "Continue for 5 minutes, maintaining awareness" ]
    focus := "Spiritual continuity repair"
    benefits := ["Grounding", "Ancestral connection", "Present moment awareness"] }

/-- Catalog entry `ancestral_grounding` (beginner). -/
def ancestral_grounding : PracticeEntry :=
  { id := "ancestral_grounding"
    name := "Ancestral Grounding"
    duration := 7
    steps :=
      [ "Stand or sit with feet firmly on the ground"
      , "Feel your connection to the earth beneath you"
      , "Imagine roots extending from your feet to ancestral lands"
      , "Draw strength and wisdom from those who came before"
      , "Feel the continuity of life through your being"
      , "Express gratitude for this sacred connection" ]
    focus := "Cognitive discontinuity healing"
    benefits := ["Stability", "Cultural continuity", "Personal identity strength"] }

/-- Catalog entry `identity_integration` (intermediate). -/
def identity_integration : PracticeEntry :=
  { id := "identity_integration"
    name := "Identity Integration Practice"
    duration := 10
    steps :=
      [ "Sit comfortably with journal and pen nearby"
      , "Acknowledge the different fragments of your identity"
      , "Welcome each part with compassion and understanding"
      , "Weave them into a cohesive whole through visualization"
      , "Honor the beauty and strength of your complete self"
      , "Write down insights, commitments, and affirmations" ]
    focus := "Identity fragmentation repair"
    benefits := ["Self-acceptance", "Identity coherence", "Personal empowerment"] }

/-- Catalog entry `intergenerational_healing` (advanced). -/
def intergenerational_healing : PracticeEntry :=
  { id := "intergenerational_healing"
    name := "Intergenerational Healing Meditation"
    duration := 15
    steps :=
      [ "Create a sacred space with intention"
      , "Connect with your ancestral lineage through breath"
      , "Visualize healing light passing through generations"
      , "Release inherited trauma with compassion"
      , "Embrace inherited strengths and wisdom"
      , "Set intentions for future generations" ]
    focus := "Transgenerational healing work"
    benefits := ["Lineage healing", "Trauma release", "Generational blessing"] }

/-- The static catalog `HEALING_PRACTICES`, an association list from level
name to the level's practice entries, in the dict's insertion order. -/
def HEALING_PRACTICES : List (String × List PracticeEntry) :=
  [ ("beginner", [reconnection_breathing, ancestral_grounding])
  , ("intermediate", [identity_integration])
  , ("advanced", [intergenerational_healing]) ]

/-- `HEALING_PRACTICES.get(user_level, HEALING_PRACTICES["beginner"])`:
the per-level entry list, falling back to the beginner list for an unknown
level key (`src/app/main.py` line 419). -/
def practicesFor (user_level : String) : List PracticeEntry :=
  (HEALING_PRACTICES.lookup user_level).getD
    [reconnection_breathing, ancestral_grounding]

/-- All catalog entries across every level, in iteration order of
`HEALING_PRACTICES.values()` (used by `complete_practice`,
`src/app/main.py` lines 464-479). -/
def allPractices : List PracticeEntry :=
  (HEALING_PRACTICES.map Prod.snd).flatten

/-- One row of the `practice_completions` table for a fixed user
(`src/app/main.py` lines 172-181). -/
structure Completion where
  practice_id : String
  completed_at : Int
  notes : String
  duration_minutes : Nat
deriving DecidableEq, Repr

/-- An `HTTPException(status_code, detail)`. -/
inductive ApiError where
  | http (status_code : Nat) (detail : String)
deriving DecidableEq, Repr

/-- Python truthiness of an optional request-body string: `data.get(k)` is
falsy when the key is absent (`None`) or maps to the empty string. -/
def falsy : Option String → Bool
  | none => true
  | some s => s.isEmpty

/-! ## StreakCalculator (`calculate_streak`, `src/app/main.py` lines 582-607) -/

/-- The `for completion in completions` loop of `calculate_streak`:
`dates` is the remaining suffix of the distinct completion dates (descending),
`streak` the accumulator.  For each date, compare with
`expected_date = current_date - timedelta(days=streak)`; on an exact match
increment, on a match with `current_date - timedelta(days=streak + 1)`
(one missed day) also increment, otherwise `break`. -/
def calculate_streak_loop (current_date : Int) (streak : Nat) :
    List Int → Nat
  | [] => streak
  | completion_date :: rest =>
    if completion_date = current_date - (streak : Int) then
      calculate_streak_loop current_date (streak + 1) rest
    else if completion_date = current_date - ((streak : Int) + 1) then
      calculate_streak_loop current_date (streak + 1) rest
    else
      streak

/-- `calculate_streak`: `completions` is the list produced by
`SELECT DISTINCT DATE(completed_at) ... ORDER BY date DESC` (distinct
completion dates, most recent first) and `current_date` is
`datetime.now().date()`. -/
def calculate_streak (current_date : Int) (completions : List Int) : Nat :=
  calculate_streak_loop current_date 0 completions

/-! ## DailySelector (`get_daily_practice`, `src/app/main.py` lines 409-450) -/

/-- Insert one row into a list sorted by `completed_at` descending. -/
def insertByCompletedDesc (c : Completion) :
    List Completion → List Completion
  | [] => [c]
  | d :: ds =>
    if d.completed_at ≤ c.completed_at then c :: d :: ds
    else d :: insertByCompletedDesc c ds

/-- `ORDER BY completed_at DESC` over the user's completion rows. -/
def sortByCompletedDesc : List Completion → List Completion
  | [] => []
  | c :: cs => insertByCompletedDesc c (sortByCompletedDesc cs)

/-- The query at `src/app/main.py` lines 422-428:
`SELECT practice_id FROM practice_completions WHERE user_id = $1 AND
completed_at >= NOW() - INTERVAL '3 days' ORDER BY completed_at DESC
LIMIT 5`, followed by extracting the `practice_id` column. -/
def recent_practice_ids (now : Int) (completions : List Completion) :
    List String :=
  (((sortByCompletedDesc
      (completions.filter (fun c => now - 259200 ≤ c.completed_at))).take 5).map
    (fun c => c.practice_id))

/-- Line 431: `[p for p in practices if p["id"] not in recent_ids]` — the
per-level candidate set after the recent-completion exclusion, before the
empty-set fallback. -/
def filtered_candidates (now : Int) (user_level : String)
    (completions : List Completion) : List PracticeEntry :=
  (practicesFor user_level).filter
    (fun p => !((recent_practice_ids now completions).contains p.id))

/-- `get_daily_practice`: `day_of_year` is
`datetime.now().timetuple().tm_yday` and `now` the timestamp used in the
SQL `NOW()`.  Returns the selected entry, or `none` exactly when the Python
indexing `available_practices[day_of_year % len(available_practices)]`
would fail. -/
def get_daily_practice (day_of_year : Nat) (now : Int) (user_level : String)
    (completions : List Completion) : Option PracticeEntry :=
  let available0 := filtered_candidates now user_level completions
  let available_practices :=
    if available0.isEmpty then practicesFor user_level else available0
  available_practices[day_of_year % available_practices.length]?

/-! ## AccountService (`register_user` / `login_user`,
`src/app/main.py` lines 309-394) -/

/-- One row of the `users` table (`src/app/main.py` lines 158-169). -/
structure User where
  id : Nat
  email : String
  password_hash : String
  user_level : String
  is_active : Bool
deriving DecidableEq, Repr

/-- Model of the opaque bcrypt `pwd_context.hash` primitive
(`hash_password`, line 214).  The theorems below never rely on its
internals, only on `verify_password`'s round-trip with it. -/
def hash_password (password : String) : String :=
  "bcrypt$" ++ password

/-- Model of `pwd_context.verify` (`verify_password`, line 217). -/
def verify_password (plain_password hashed_password : String) : Bool :=
  hash_password plain_password == hashed_password

/-- Model of the opaque JWT primitive `create_access_token` (line 220):
the signed payload `{"sub": user_id, "email": email}`. -/
structure AccessToken where
  sub : Nat
  email : String
deriving DecidableEq, Repr

/-- Successful registration / login response body (the fields the claims
touch). -/
structure AuthResponse where
  access_token : AccessToken
  user_id : Nat
  email : String
deriving DecidableEq, Repr

/-- `register_user` (`src/app/main.py` lines 309-356): returns the users
table after the call together with the response or error. -/
def register_user (email password : Option String) (users : List User) :
    List User × Except ApiError AuthResponse :=
  if falsy email || falsy password then
    (users, .error (.http 400 "Email and password are required"))
  else
    let e := email.getD ""
    let p := password.getD ""
    if p.length < 8 then
      (users,
        .error (.http 400 "Password must be at least 8 characters long"))
    else if (users.find? (fun u => u.email == e)).isSome then
      (users, .error (.http 400 "User with this email already exists"))
    else
      let user_id := users.length
      let hashed_password := hash_password p
      (users ++ [{ id := user_id, email := e, password_hash := hashed_password
                 , user_level := "beginner", is_active := true }],
        .ok { access_token := { sub := user_id, email := e }
            , user_id := user_id, email := e })

/-- `login_user` (`src/app/main.py` lines 358-394).  The row fetch
`SELECT * FROM users WHERE email = $1 AND is_active = TRUE` is
`List.find?` over the users table. -/
def login_user (email password : Option String) (users : List User) :
    Except ApiError AuthResponse :=
  if falsy email || falsy password then
    .error (.http 400 "Email and password are required")
  else
    let e := email.getD ""
    let p := password.getD ""
    match users.find? (fun u => u.email == e && u.is_active) with
    | none => .error (.http 401 "Invalid email or password")
    | some user =>
      if !(verify_password p user.password_hash) then
        .error (.http 401 "Invalid email or password")
      else
        .ok { access_token := { sub := user.id, email := user.email }
            , user_id := user.id, email := user.email }

/-! ## CompletionRecorder (`complete_practice`,
`src/app/main.py` lines 452-506) -/

/-- The request body of `POST /practices/complete`: an untyped dict of
which the handler reads only `practice_id` and `notes`; a caller may also
send `duration_minutes`, which the handler never reads. -/
structure CompleteRequest where
  practice_id : Option String
  notes : Option String
  duration_minutes : Option Nat
deriving DecidableEq, Repr

/-- Successful completion response (the fields the claims touch). -/
structure CompleteResponse where
  status : String
  practice_id : String
  total_completions : Nat
deriving DecidableEq, Repr

/-- `complete_practice`: validates the practice id against the whole
catalog, looks up the catalog entry's duration
(`next(p["duration"] for ... if p["id"] == practice_id)`), inserts the
completion row, and returns the new row count.  Returns the (possibly
updated) completions table together with the response or error. -/
def complete_practice (data : CompleteRequest) (now : Int)
    (completions : List Completion) :
    List Completion × Except ApiError CompleteResponse :=
  let practice_id := data.practice_id
  let notes := (data.notes).getD ""
  if falsy practice_id then
    (completions, .error (.http 400 "Practice ID is required"))
  else
    let pid := practice_id.getD ""
    if !(allPractices.any (fun p => p.id == pid)) then
      (completions, .error (.http 400 "Invalid practice ID"))
    else
      match allPractices.find? (fun p => p.id == pid) with
      | none =>
        (completions,
          .error (.http 500 "Failed to record practice completion"))
      | some pr =>
        let completions2 :=
          completions ++
            [{ practice_id := pid, completed_at := now
             , notes := notes, duration_minutes := pr.duration }]
        (completions2,
          .ok { status := "completed", practice_id := pid
              , total_completions := completions2.length })

/-- Whether a handler outcome is a `ValidationError`, i.e. an
`HTTPException` with status code 400. -/
def isValidationError {α : Type} : Except ApiError α → Bool
  | .error (.http status_code _) => status_code == 400
  | .ok _ => false

/-- A completion history with six rows inside the trailing 3-day window
(`now = 1000000`): five recent completions of `identity_integration`
followed by one older completion of `ancestral_grounding`.  The `LIMIT 5`
of the recent-practices query drops the `ancestral_grounding` row. -/
def exclusionHist : List Completion :=
  [ { practice_id := "identity_integration", completed_at := 999999
    , notes := "", duration_minutes := 10 }
  , { practice_id := "identity_integration", completed_at := 999998
    , notes := "", duration_minutes := 10 }
  , { practice_id := "identity_integration", completed_at := 999997
    , notes := "", duration_minutes := 10 }
  , { practice_id := "identity_integration", completed_at := 999996
    , notes := "", duration_minutes := 10 }
  , { practice_id := "identity_integration", completed_at := 999995
    , notes := "", duration_minutes := 10 }
  , { practice_id := "ancestral_grounding", completed_at := 999990
    , notes := "", duration_minutes := 7 } ]

/-- A one-row users table for exercising the login error paths. -/
def demoUsers : List User :=
  [ { id := 0, email := "user@example.com"
    , password_hash := hash_password "password123"
    , user_level := "beginner", is_active := true } ]

/-! ## Helper lemmas -/

/-- Every per-level list of the catalog is non-empty, including the
beginner fallback used for an unknown level key. -/
theorem practicesFor_ne_nil (user_level : String) :
    practicesFor user_level ≠ [] := by
  unfold practicesFor HEALING_PRACTICES
  rcases h1 : user_level == "beginner" <;>
    rcases h2 : user_level == "intermediate" <;>
      rcases h3 : user_level == "advanced" <;>
        simp [List.lookup, h1, h2, h3]

/-- Indexing a non-empty list at `i % length` always succeeds. -/
theorem getElem_mod_isSome {α : Type} (l : List α) (i : Nat) (h : l ≠ []) :
    (l[i % l.length]?).isSome = true := by
  have hlen : 0 < l.length := List.length_pos.mpr h
  rw [List.getElem?_eq_getElem (Nat.mod_lt _ hlen)]
  rfl

/-- Every member of the post-exclusion candidate set has an id outside the
recent-practice id list. -/
theorem mem_filtered_not_recent (now : Int) (user_level : String)
    (completions : List Completion) (p : PracticeEntry)
    (hp : p ∈ filtered_candidates now user_level completions) :
    (recent_practice_ids now completions).contains p.id = false := by
  have := (List.mem_filter.mp hp).2
  simpa using this

/-! ## Claim theorems -/

/-- C1: for a completion-date history of exactly `[today, today - 2]`
(one missed day at `today - 1`), `calculate_streak` returns 2: the
one-gap-forgiveness rule counts a date exactly one day earlier than the
next expected slot as part of the streak. -/
theorem calculate_streak_single_gap (today : Int) :
    calculate_streak today [today, today - 2] = 2 := by
  simp only [calculate_streak, calculate_streak_loop]
  norm_num

/-- C2: for a completion-date history of exactly `[today, today - 3]`
(two consecutive missed days at `today - 1` and `today - 2`),
`calculate_streak` returns 1: two consecutive missed days terminate the
backward walk. -/
theorem calculate_streak_double_gap (today : Int) :
    calculate_streak today [today, today - 3] = 1 := by
  simp only [calculate_streak, calculate_streak_loop]
  norm_num

/-- C9: for an account whose only distinct completion date is yesterday
(`[today - 1]`), `calculate_streak` returns 1, not 0: the one-miss rule
also forgives the absence of a completion on today itself. -/
theorem calculate_streak_yesterday_only (today : Int) :
    calculate_streak today [today - 1] = 1 := by
  simp only [calculate_streak, calculate_streak_loop]
  norm_num

/-- C4: for every date, level and completion history, the daily selector
returns exactly one practice entry (never an absent result): when the
3-day exclusion empties the per-level candidate set it falls back to the
full per-level set, so the index `day_of_year % len(candidates)` is always
taken over a non-empty list. -/
theorem get_daily_practice_isSome (day_of_year : Nat) (now : Int)
    (user_level : String) (completions : List Completion) :
    (get_daily_practice day_of_year now user_level completions).isSome
      = true := by
  unfold get_daily_practice
  by_cases h : (filtered_candidates now user_level completions).isEmpty
  · simp only [h, if_true]
    exact getElem_mod_isSome _ _ (practicesFor_ne_nil user_level)
  · simp only [eq_false_intro h, if_false]
    refine getElem_mod_isSome _ _ ?_
    simpa [List.isEmpty_iff] using h

/-- C5: the daily selector is deterministic: two runs with the same
current date (both the day-of-year and the `NOW()` timestamp), the same
user level and the same completion history return the same practice
entry. -/
theorem get_daily_practice_deterministic (d1 d2 : Nat) (n1 n2 : Int)
    (l1 l2 : String) (c1 c2 : List Completion)
    (hd : d1 = d2) (hn : n1 = n2) (hl : l1 = l2) (hc : c1 = c2) :
    get_daily_practice d1 n1 l1 c1 = get_daily_practice d2 n2 l2 c2 := by
  subst hd
  subst hn
  subst hl
  subst hc
  rfl

/-- Witness for C5 at a concrete repeated input. -/
theorem get_daily_practice_deterministic_witness :
    get_daily_practice 1 0 "beginner" [] = get_daily_practice 1 0 "beginner" [] :=
  get_daily_practice_deterministic 1 1 0 0 "beginner" "beginner" [] []
    rfl rfl rfl rfl

/-- C3 counterexample: with six completions inside the trailing 3-day
window (five of `identity_integration`, then one of
`ancestral_grounding`), the `LIMIT 5` of the recent-practices query drops
the `ancestral_grounding` row, so `ancestral_grounding` — completed
within the window — stays in the candidate set and is in fact selected on
day-of-year 1, even though `reconnection_breathing`, never completed at
all, is a non-excluded alternative for the level.  This refutes the claim
that every entry completed in the window is excluded. -/
theorem daily_exclusion_window_counterexample :
    ("ancestral_grounding" ∈
      (filtered_candidates 1000000 "beginner" exclusionHist).map
        (fun p => p.id)) ∧
    (∃ c ∈ exclusionHist, c.practice_id = "ancestral_grounding" ∧
      (1000000 : Int) - 259200 ≤ c.completed_at) ∧
    ((get_daily_practice 1 1000000 "beginner" exclusionHist).map
      (fun p => p.id) = some "ancestral_grounding") ∧
    (∀ c ∈ exclusionHist, c.practice_id ≠ "reconnection_breathing") := by
  decide

/-- C3 amended: the candidate set excludes exactly the ids among the
account's 5 most recent within-window completions (`LIMIT 5`): every
candidate's id is outside `recent_practice_ids`, and whenever some entry
of the level has an id outside `recent_practice_ids`, the selected entry's
id is also outside `recent_practice_ids`. -/
theorem get_daily_practice_avoids_recent (now : Int) (user_level : String)
    (completions : List Completion) (day_of_year : Nat)
    (p q r : PracticeEntry)
    (hq : q ∈ practicesFor user_level)
    (hqex : (recent_practice_ids now completions).contains q.id = false)
    (hp : get_daily_practice day_of_year now user_level completions = some p)
    (hr : r ∈ filtered_candidates now user_level completions) :
    (recent_practice_ids now completions).contains p.id = false ∧
    (recent_practice_ids now completions).contains r.id = false := by
  have hqf : q ∈ filtered_candidates now user_level completions :=
    List.mem_filter.mpr ⟨hq, by
      show (!(recent_practice_ids now completions).contains q.id) = true
      rw [hqex]
      rfl⟩
  have hne : filtered_candidates now user_level completions ≠ [] :=
    List.ne_nil_of_mem hqf
  have hie : (filtered_candidates now user_level completions).isEmpty
      = false := by
    simp [List.isEmpty_iff, hne]
  have hpf : p ∈ filtered_candidates now user_level completions := by
    simp only [get_daily_practice, hie, Bool.false_eq_true, if_false] at hp
    exact List.getElem?_mem hp
  exact ⟨mem_filtered_not_recent _ _ _ _ hpf,
    mem_filtered_not_recent _ _ _ _ hr⟩

/-- Witness for the amended C3 at the concrete counterexample history:
`ancestral_grounding` (the selected entry on day 1) and
`reconnection_breathing` (a candidate) both have ids outside the 5-row
recent-practice list. -/
theorem get_daily_practice_avoids_recent_witness :
    (recent_practice_ids 1000000 exclusionHist).contains
      ancestral_grounding.id = false ∧
    (recent_practice_ids 1000000 exclusionHist).contains
      reconnection_breathing.id = false :=
  get_daily_practice_avoids_recent 1000000 "beginner" exclusionHist 1
    ancestral_grounding reconnection_breathing reconnection_breathing
    (by decide) (by decide) (by decide) (by decide)

/-- C6: a call to `complete_practice` with a practice id that resolves to
no catalog entry at any level fails with a ValidationError (HTTP 400) and
leaves the completions table unchanged. -/
theorem complete_practice_unknown_id (pid : String) (notes : Option String)
    (dm : Option Nat) (now : Int) (completions : List Completion)
    (h : ∀ p ∈ allPractices, p.id ≠ pid) :
    (complete_practice ⟨some pid, notes, dm⟩ now completions).1
      = completions ∧
    isValidationError
      (complete_practice ⟨some pid, notes, dm⟩ now completions).2
      = true := by
  have hany : allPractices.any (fun p => p.id == pid) = false := by
    rw [List.any_eq_false]
    intro x hx
    simpa using h x hx
  unfold complete_practice
  by_cases hn : pid = ""
  · subst hn
    exact ⟨rfl, rfl⟩
  · have hfalsy : falsy (some pid) = false :=
      Bool.eq_false_iff.mpr (fun hc => hn ((String.isEmpty_iff pid).mp hc))
    simp [hfalsy, hany, isValidationError]

/-- Witness for C6: completing the unknown id `"chakra_alignment"` on an
empty completions table is rejected with a 400 and writes nothing. -/
theorem complete_practice_unknown_id_witness :
    (complete_practice ⟨some "chakra_alignment", none, none⟩ 0 []).1
      = ([] : List Completion) ∧
    isValidationError
      (complete_practice ⟨some "chakra_alignment", none, none⟩ 0 []).2
      = true :=
  complete_practice_unknown_id "chakra_alignment" none none 0 [] (by decide)

/-- C7: registration fails with a ValidationError (HTTP 400) whenever the
email is missing, the password is missing, or the password is shorter
than 8 characters, and in each case the users table is unchanged (no
account is created). -/
theorem register_user_invalid (email password : Option String)
    (users : List User)
    (h : falsy email = true ∨ falsy password = true ∨
      (password.getD "").length < 8) :
    (register_user email password users).1 = users ∧
    isValidationError (register_user email password users).2 = true := by
  unfold register_user
  by_cases hf : (falsy email || falsy password) = true
  · rw [if_pos hf]
    exact ⟨rfl, rfl⟩
  · have he : falsy email = false := by
      cases hemail : falsy email
      · rfl
      · exact absurd (by rw [Bool.or_eq_true]; exact Or.inl hemail) hf
    have hpw : falsy password = false := by
      cases hpass : falsy password
      · rfl
      · exact absurd (by rw [Bool.or_eq_true]; exact Or.inr hpass) hf
    have hlen : (password.getD "").length < 8 := by
      rcases h with h | h | h
      · rw [he] at h
        cases h
      · rw [hpw] at h
        cases h
      · exact h
    rw [if_neg hf]
    simp [hlen, isValidationError]

/-- Witness for C7: registering with the 5-character password `"short"`
on an empty users table is rejected with a 400 and creates no account. -/
theorem register_user_invalid_witness :
    (register_user (some "a@b.example") (some "short") []).1
      = ([] : List User) ∧
    isValidationError
      (register_user (some "a@b.example") (some "short") []).2 = true :=
  register_user_invalid (some "a@b.example") (some "short") []
    (Or.inr (Or.inr (by decide)))

/-- C8: login with an unknown email and login with a known active email
but a wrong password produce the same AuthError — the identical HTTP 401
with the identical detail message — so the response does not disclose
which of the two was wrong. -/
theorem login_user_uniform_error (users : List User) (e1 p1 e2 p2 : String)
    (he1 : e1 ≠ "") (hp1 : p1 ≠ "") (he2 : e2 ≠ "") (hp2 : p2 ≠ "")
    (hunknown : users.find? (fun u => u.email == e1 && u.is_active) = none)
    (u : User)
    (hknown : users.find? (fun u => u.email == e2 && u.is_active) = some u)
    (hwrong : verify_password p2 u.password_hash = false) :
    login_user (some e1) (some p1) users
      = .error (.http 401 "Invalid email or password") ∧
    login_user (some e2) (some p2) users
      = .error (.http 401 "Invalid email or password") := by
  have hf1 : falsy (some e1) = false :=
    Bool.eq_false_iff.mpr (fun hc => he1 ((String.isEmpty_iff e1).mp hc))
  have hg1 : falsy (some p1) = false :=
    Bool.eq_false_iff.mpr (fun hc => hp1 ((String.isEmpty_iff p1).mp hc))
  have hf2 : falsy (some e2) = false :=
    Bool.eq_false_iff.mpr (fun hc => he2 ((String.isEmpty_iff e2).mp hc))
  have hg2 : falsy (some p2) = false :=
    Bool.eq_false_iff.mpr (fun hc => hp2 ((String.isEmpty_iff p2).mp hc))
  constructor
  · unfold login_user
    simp only [hf1, hg1, Bool.or_self, Bool.false_eq_true, if_false,
      Option.getD_some]
    rw [hunknown]
  · unfold login_user
    simp only [hf2, hg2, Bool.or_self, Bool.false_eq_true, if_false,
      Option.getD_some]
    rw [hknown]
    simp [hwrong]

/-- Witness for C8: on `demoUsers`, logging in as the unregistered
`ghost@example.com` and logging in as `user@example.com` with a wrong
password yield the identical 401 error. -/
theorem login_user_uniform_error_witness :
    login_user (some "ghost@example.com") (some "whatever1") demoUsers
      = .error (.http 401 "Invalid email or password") ∧
    login_user (some "user@example.com") (some "wrongsecret") demoUsers
      = .error (.http 401 "Invalid email or password") :=
  login_user_uniform_error demoUsers "ghost@example.com" "whatever1"
    "user@example.com" "wrongsecret"
    (by decide) (by decide) (by decide) (by decide) (by decide)
    { id := 0, email := "user@example.com"
    , password_hash := hash_password "password123"
    , user_level := "beginner", is_active := true }
    (by decide) (by decide)

/-- C10: on a successful completion, the stored record's duration is the
catalog entry's own duration for that practice id, and a caller-supplied
`duration_minutes` in the request body is ignored: replacing it by any
other value yields the identical result, so it is never stored. -/
theorem complete_practice_duration_from_catalog (data : CompleteRequest)
    (dm : Option Nat) (now : Int)
    (completions completions2 : List Completion) (res : CompleteResponse)
    (pr : PracticeEntry)
    (hfind : allPractices.find? (fun p => p.id == data.practice_id.getD "")
      = some pr)
    (hok : complete_practice data now completions
      = (completions2, Except.ok res)) :
    completions2 = completions ++
      [{ practice_id := data.practice_id.getD "", completed_at := now
       , notes := data.notes.getD "", duration_minutes := pr.duration }] ∧
    complete_practice { data with duration_minutes := dm } now completions
      = (completions2, Except.ok res) := by
  have hignore :
      complete_practice { data with duration_minutes := dm } now completions
        = complete_practice data now completions := by
    cases data
    rfl
  refine ⟨?_, by rw [hignore, hok]⟩
  have hprop := List.find?_some hfind
  have hmem := List.mem_of_find?_eq_some hfind
  have hany : allPractices.any (fun p => p.id == data.practice_id.getD "")
      = true :=
    List.any_eq_true.mpr ⟨pr, hmem, hprop⟩
  unfold complete_practice at hok
  by_cases hf : falsy data.practice_id = true
  · rw [if_pos hf] at hok
    exact absurd (congrArg Prod.snd hok) (by simp)
  · simp only [eq_false_intro hf, Bool.false_eq_true, if_false] at hok
    simp only [hany, Bool.not_true, Bool.false_eq_true, if_false] at hok
    rw [hfind] at hok
    exact (congrArg Prod.fst hok).symm

/-- Witness for C10: completing `reconnection_breathing` with a bogus
caller-supplied duration of 99 stores the catalog duration 5, and
changing the supplied duration to 42 changes nothing. -/
theorem complete_practice_duration_from_catalog_witness :
    ([{ practice_id := "reconnection_breathing", completed_at := 5000
      , notes := "felt calm", duration_minutes := 5 }] : List Completion)
      = [] ++
        [{ practice_id := "reconnection_breathing", completed_at := 5000
         , notes := "felt calm", duration_minutes := 5 }] ∧
    complete_practice
      { practice_id := some "reconnection_breathing"
      , notes := some "felt calm", duration_minutes := some 42 } 5000 []
      = ([{ practice_id := "reconnection_breathing", completed_at := 5000
          , notes := "felt calm", duration_minutes := 5 }],
         Except.ok { status := "completed"
                   , practice_id := "reconnection_breathing"
                   , total_completions := 1 }) :=
  complete_practice_duration_from_catalog
    { practice_id := some "reconnection_breathing"
    , notes := some "felt calm", duration_minutes := some 99 }
    (some 42) 5000 []
    [{ practice_id := "reconnection_breathing", completed_at := 5000
     , notes := "felt calm", duration_minutes := 5 }]
    { status := "completed", practice_id := "reconnection_breathing"
    , total_completions := 1 }
    reconnection_breathing rfl rfl

end Benkhawiya
